import Mathlib

/-!
Shallow embedding of the attachment tools of the `zendesk-mcp-server`
repository (`src/tools/attachments.js`) and proofs about them.

The four MCP tool handlers (`get_attachment`, `download_attachment`,
`download_attachment_to_disk`, `download_and_extract_attachment`) are
translated into pure Lean functions.  Effects of the host platform are made
explicit:

* outcomes of the external collaborators (`zendeskClient.downloadAttachment`,
  `fs.writeFile`, `execAsync`, `fs.readdir`) are inputs of the handler
  (`Except String _` for fallible ones);
* `os.tmpdir()` and `Date.now()` are inputs (`tmpdir`, `now`);
* the file-system operations a handler performs are returned as an ordered
  trace (`List FSOp`), in the order the JS code awaits them.

String utilities (`path.join`, `path.basename`, `new URL(...).pathname`,
`String.prototype.substring`, regex suffix tests) are modelled by structural
Lean functions over `String.data` so that every closed statement evaluates in
the kernel.
-/

namespace Zendesk

/-- Split a character list at every occurrence of the separator `c`
(model of splitting a string on a one-character separator, as
`String.prototype.split` / `path` segment handling do). -/
def splitListChar (c : Char) : List Char → List (List Char)
  | [] => [[]]
  | x :: xs =>
      let rest := splitListChar c xs
      if x = c then [] :: rest
      else
        match rest with
        | [] => [[x]]
        | r :: rs => (x :: r) :: rs

/-- Split a string at every occurrence of the character `c`. -/
def splitOnChar (c : Char) (s : String) : List String :=
  (splitListChar c s.data).map String.mk

/-- Bool test that `a` is a prefix of `b` (character lists). -/
def listPrefixOf : List Char → List Char → Bool
  | [], _ => true
  | _ :: _, [] => false
  | a :: as, b :: bs => a == b && listPrefixOf as bs

/-- Model of the case-sensitive suffix test `/suffix$/.test(s)`:
`sfx` read backwards is a prefix of `s` read backwards. -/
def endsWithStr (s sfx : String) : Bool :=
  listPrefixOf sfx.data.reverse s.data.reverse

/-- Model of JS case-insensitive matching: lower-case every character
(the filenames involved are ASCII). -/
def lower (s : String) : String :=
  String.mk (s.data.map Char.toLower)

/-- Model of JS `s.substring(0, n)`: the first `n` characters (all of `s`
when it is shorter than `n`). -/
def takeStr (s : String) (n : Nat) : String :=
  String.mk (s.data.take n)

/-- Model of Node `path.join(a, b)` for the joins the handlers perform
(left operand without trailing separator, right operand a plain name). -/
def pathJoin (a b : String) : String :=
  a ++ "/" ++ b

/-- Model of Node `path.basename`: the last nonempty `/`-separated segment. -/
def basename (p : String) : String :=
  ((splitOnChar '/' p).filter (fun seg => seg != "")).getLastD ""

/-- Find the first `"://"` in a character list, returning the part before it
(the scheme) and the part after it. -/
def splitScheme : List Char → Option (List Char × List Char)
  | [] => none
  | ':' :: '/' :: '/' :: rest => some ([], rest)
  | c :: rest => (splitScheme rest).map (fun pr => (c :: pr.1, pr.2))

/-- Model of the host WHATWG parser used as `new URL(content_url).pathname`:
`none` models the constructor throwing (no `scheme://`), otherwise the part
after the host with a leading `/` (queries and fragments are not modelled;
the inputs exercised contain none). -/
def urlPathname (s : String) : Option String :=
  match splitScheme s.data with
  | none => none
  | some (scheme, rest) =>
      if scheme.isEmpty then none
      else
        let parts := splitListChar '/' rest
        some ("/" ++ String.intercalate "/" (parts.tail.map String.mk))

/-- `result.contentType?.split('/')[1] || 'bin'` from the filename-fallback
branch of both download handlers. -/
def extFromContentType (ct : Option String) : String :=
  match ct with
  | none => "bin"
  | some c =>
      let e := (splitOnChar '/' c).getD 1 ""
      if e = "" then "bin" else e

/-- The filename fallback of `download_attachment_to_disk` /
`download_and_extract_attachment` when no filename was supplied: the URL
path's basename, or — when URL parsing throws — the time-stamped name
`attachment-${Date.now()}.${ext}`. -/
def resolveFilenameFromUrl (content_url : String) (contentType : Option String)
    (now : Nat) : String :=
  match urlPathname content_url with
  | some p => basename p
  | none => "attachment-" ++ toString now ++ "." ++ extFromContentType contentType

/-- `let finalFilename = filename; if (!finalFilename) { ... }` — a supplied
filename is used unless it is falsy (the empty string). -/
def resolveFilename (content_url : String) (filename : Option String)
    (contentType : Option String) (now : Nat) : String :=
  match filename with
  | some f =>
      if f = "" then resolveFilenameFromUrl content_url contentType now else f
  | none => resolveFilenameFromUrl content_url contentType now

/-- `path.join(os.tmpdir(), 'zendesk-attachments')` — the directory both
download handlers create and write into. -/
def cacheRoot (tmpdir : String) : String :=
  pathJoin tmpdir "zendesk-attachments"

/-- `const filePath = path.join(tmpDir, finalFilename)` (lines 85–91 and
144): the on-disk location an attachment is written to, as a function of the
handler inputs and platform state. -/
def storageLocation (tmpdir content_url : String) (filename : Option String)
    (contentType : Option String) (now : Nat) : String :=
  pathJoin (cacheRoot tmpdir) (resolveFilename content_url filename contentType now)

/-- The regex test at line 150,
`/\.(tar|tar\.gz|tgz|tar\.bz2|tbz2|zip)$/i.test(finalFilename)`:
the filename ends, case-insensitively, with one of the six suffixes. -/
def is_archive (filename : String) : Bool :=
  [".tar", ".tar.gz", ".tgz", ".tar.bz2", ".tbz2", ".zip"].any
    (fun sfx => endsWithStr (lower filename) sfx)

/-- The shell command the handler builds for `execAsync` (the source
interpolates the two quoted paths into a fixed template per branch). -/
inductive ExtractCmd where
  | unzip (src dst : String)
  | tarGz (src dst : String)
  | tarBz2 (src dst : String)
  | tarPlain (src dst : String)
  deriving DecidableEq, Repr

/-- The `if/else if` dispatch chain of lines 173–182: `.zip` →
`unzip -q src -d dst`; `.tar.gz`/`.tgz` → `tar -xzf src -C dst`;
`.tar.bz2`/`.tbz2` → `tar -xjf src -C dst`; `.tar` → `tar -xf src -C dst`;
`none` models `extractCommand` remaining `undefined`. -/
def buildExtractCommand (finalFilename filePath extractDir : String) :
    Option ExtractCmd :=
  let f := lower finalFilename
  if endsWithStr f ".zip" then some (.unzip filePath extractDir)
  else if endsWithStr f ".tar.gz" || endsWithStr f ".tgz" then
    some (.tarGz filePath extractDir)
  else if endsWithStr f ".tar.bz2" || endsWithStr f ".tbz2" then
    some (.tarBz2 filePath extractDir)
  else if endsWithStr f ".tar" then some (.tarPlain filePath extractDir)
  else none

/-- One observable effect of a handler, in the order the JS code awaits them.
`fetchCall` records an invocation of the upstream collaborator
`zendeskClient.downloadAttachment`; `remove` is in the effect language so
that "the handler deletes nothing" is expressible — the source never emits
it. -/
inductive FSOp where
  | fetchCall (url : String)
  | mkdirRecursive (p : String)
  | writeFile (p : String) (data : String)
  | execCmd (c : ExtractCmd)
  | readdirRecursive (p : String)
  | remove (p : String)
  deriving DecidableEq, Repr

/-- The result returned by `zendeskClient.downloadAttachment`: base64 `data`,
optional `contentType`, and `size`. -/
structure FetchResult where
  data : String
  contentType : Option String
  size : Nat
  deriving DecidableEq, Repr

/-- The structured payload a handler returns to the MCP transport.  Each
constructor is one of the `return { content: [...] }` shapes of the source;
`failure` is the shape of every `catch` block (`isError: true`). -/
inductive ToolResponse where
  | failure (text : String)
  | metadataOk (json : String)
  | downloadOk (contentType : Option String) (size : Nat) (dataPreview : String)
  | diskOk (path filename : String) (contentType : Option String) (size : Nat)
  | extractSkipped (path filename : String) (contentType : Option String) (size : Nat)
  | extractOk (archivePath extractionPath filename : String)
      (contentType : Option String) (size : Nat) (fileCount : Nat)
  deriving DecidableEq, Repr

/-- The `isError: true` flag: present exactly on the `catch`-block payloads. -/
def ToolResponse.isError : ToolResponse → Bool
  | .failure _ => true
  | _ => false

/-- The `message` field of the successful JSON payloads (the `catch` payloads
carry their whole text instead). -/
def ToolResponse.message : ToolResponse → String
  | .failure t => t
  | .metadataOk _ => ""
  | .downloadOk _ _ _ => "Attachment downloaded successfully"
  | .diskOk _ _ _ _ => "Attachment downloaded to disk"
  | .extractSkipped _ _ _ _ => "Attachment downloaded (not an archive)"
  | .extractOk _ _ _ _ _ _ => "Attachment downloaded and extracted"

/-- Handler of the `get_attachment` tool (lines 18–33): returns the
metadata JSON, or the `catch` payload on collaborator failure. -/
def get_attachment (metaResult : Except String String) : ToolResponse :=
  match metaResult with
  | .error msg => .failure ("Error getting attachment: " ++ msg)
  | .ok json => .metadataOk json

/-- Handler of the `download_attachment` tool (lines 41–61): on success the
payload's `data` field is `result.data.substring(0, 100) + '...'`. -/
def download_attachment (fetch : Except String FetchResult) : ToolResponse :=
  match fetch with
  | .error msg => .failure ("Error downloading attachment: " ++ msg)
  | .ok r => .downloadOk r.contentType r.size (takeStr r.data 100 ++ "...")

/-- Platform inputs and collaborator outcomes of one
`download_attachment_to_disk` call. -/
structure DiskEnv where
  tmpdir : String
  now : Nat
  fetch : Except String FetchResult
  write : Except String Unit
  deriving Repr

/-- Handler of the `download_attachment_to_disk` tool (lines 70–115):
fetch, `mkdir -p` the cache directory, resolve the filename, write the bytes
directly at `path.join(tmpDir, finalFilename)`, and report that path.  A
failed write still has the final path as its target (the trace records the
attempt); every error is caught into a `failure` payload. -/
def download_attachment_to_disk (content_url : String) (filename : Option String)
    (env : DiskEnv) : ToolResponse × List FSOp :=
  match env.fetch with
  | .error msg =>
      (.failure ("Error downloading attachment to disk: " ++ msg),
       [.fetchCall content_url])
  | .ok result =>
      let tmpDir := cacheRoot env.tmpdir
      let finalFilename := resolveFilename content_url filename result.contentType env.now
      let filePath := pathJoin tmpDir finalFilename
      let tr : List FSOp :=
        [.fetchCall content_url, .mkdirRecursive tmpDir, .writeFile filePath result.data]
      match env.write with
      | .error msg => (.failure ("Error downloading attachment to disk: " ++ msg), tr)
      | .ok _ => (.diskOk filePath finalFilename result.contentType result.size, tr)

/-- Platform inputs and collaborator outcomes of one
`download_and_extract_attachment` call.  `dirListing` is what
`fs.readdir(extractDir, { recursive: true })` returns after extraction. -/
structure ExtractEnv where
  tmpdir : String
  now : Nat
  fetch : Except String FetchResult
  write : Except String Unit
  exec : Except String Unit
  dirListing : List String
  deriving Repr

/-- Handler of the `download_and_extract_attachment` tool (lines 124–211):
after downloading exactly as `download_attachment_to_disk` does, it tests
`is_archive`; non-archives return a success payload with `extracted: false`;
archives get an extraction directory `extracted-${Date.now()}` created and
the dispatched shell command executed.  No member path of the archive is
ever inspected, no effect is undone on failure, and every error is caught
into a `failure` payload.  The `none` branch of the command dispatch models
`execAsync(undefined)` and is unreachable for archives
(`buildExtractCommand_total`). -/
def download_and_extract_attachment (content_url : String) (filename : Option String)
    (env : ExtractEnv) : ToolResponse × List FSOp :=
  match env.fetch with
  | .error msg =>
      (.failure ("Error downloading/extracting attachment: " ++ msg),
       [.fetchCall content_url])
  | .ok result =>
      let tmpDir := cacheRoot env.tmpdir
      let finalFilename := resolveFilename content_url filename result.contentType env.now
      let filePath := pathJoin tmpDir finalFilename
      match env.write with
      | .error msg =>
          (.failure ("Error downloading/extracting attachment: " ++ msg),
           [.fetchCall content_url, .mkdirRecursive tmpDir,
            .writeFile filePath result.data])
      | .ok _ =>
          if is_archive finalFilename then
            let extractDir := pathJoin tmpDir ("extracted-" ++ toString env.now)
            match buildExtractCommand finalFilename filePath extractDir with
            | none =>
                (.failure "Error downloading/extracting attachment: undefined",
                 [.fetchCall content_url, .mkdirRecursive tmpDir,
                  .writeFile filePath result.data, .mkdirRecursive extractDir])
            | some cmd =>
                match env.exec with
                | .error msg =>
                    (.failure ("Error downloading/extracting attachment: " ++ msg),
                     [.fetchCall content_url, .mkdirRecursive tmpDir,
                      .writeFile filePath result.data, .mkdirRecursive extractDir,
                      .execCmd cmd])
                | .ok _ =>
                    (.extractOk filePath extractDir finalFilename result.contentType
                        result.size env.dirListing.length,
                     [.fetchCall content_url, .mkdirRecursive tmpDir,
                      .writeFile filePath result.data, .mkdirRecursive extractDir,
                      .execCmd cmd, .readdirRecursive extractDir])
          else
            (.extractSkipped filePath finalFilename result.contentType result.size,
             [.fetchCall content_url, .mkdirRecursive tmpDir,
              .writeFile filePath result.data])

/-- Number of upstream fetch invocations recorded in a trace. -/
def fetchCalls : List FSOp → Nat
  | [] => 0
  | .fetchCall _ :: tr => fetchCalls tr + 1
  | _ :: tr => fetchCalls tr

/-- The write operations of a trace, as `(target path, data)` pairs. -/
def writesOf : List FSOp → List (String × String)
  | [] => []
  | .writeFile p d :: tr => (p, d) :: writesOf tr
  | _ :: tr => writesOf tr

/-- The paths a trace removes (the handlers never remove anything). -/
def removesOf : List FSOp → List String
  | [] => []
  | .remove p :: tr => p :: removesOf tr
  | _ :: tr => removesOf tr

/-- Nonempty `/`-separated segments of a path string. -/
def segsOf (p : String) : List String :=
  (splitOnChar '/' p).filter (fun s => s != "")

/-- Resolve the segments `m` of an archive-member path against the segments
`acc` of a directory, following `..` and `.` segments, as the file system
does when an external extractor writes the member. -/
def resolveSegs (acc : List String) : List String → List String
  | [] => acc
  | ".." :: rest => resolveSegs acc.dropLast rest
  | "." :: rest => resolveSegs acc rest
  | s :: rest => resolveSegs (acc ++ [s]) rest

/-- `p` stays inside the directory `root` (segment lists). -/
def underRoot (root p : List String) : Bool :=
  root.isPrefixOf p

/-- Model of the external `tar`/`unzip` process the handler shells out to:
it writes every member of the archive at that member's path resolved against
the extraction directory.  The repository code never sees this member list —
its only archive-dependent input is the opaque byte string. -/
def tarWrites (root : List String) (members : List (List String)) :
    List (List String) :=
  members.map (fun m => resolveSegs root m)

/-- A prefix test that succeeds on a cons can only do so on a cons with the
same head, and the tails are again in the prefix relation. -/
theorem listPrefixOf_cons (a : Char) (as ys : List Char)
    (h : listPrefixOf (a :: as) ys = true) :
    ∃ bs, ys = a :: bs ∧ listPrefixOf as bs = true := by
  cases ys with
  | nil => simp [listPrefixOf] at h
  | cons b bs =>
    simp only [listPrefixOf, Bool.and_eq_true, beq_iff_eq] at h
    exact ⟨bs, by rw [h.1], h.2⟩

/-- A string ending in `a` has the same last character as `a`. -/
theorem endsWith_getLast (s a : String) (c : Char)
    (hc : a.data.getLast? = some c) (h : endsWithStr s a = true) :
    s.data.getLast? = some c := by
  rw [← List.head?_reverse] at hc ⊢
  unfold endsWithStr at h
  cases hrev : a.data.reverse with
  | nil => rw [hrev] at hc; exact absurd hc (by simp)
  | cons hd tl =>
    rw [hrev] at hc h
    obtain ⟨t, ht, -⟩ := listPrefixOf_cons hd tl s.data.reverse h
    rw [ht]
    simpa using hc

/-- Two suffixes whose last characters differ cannot both match. -/
theorem not_endsWith_both (s a b : String) (x y : Char)
    (hax : a.data.getLast? = some x) (hby : b.data.getLast? = some y) (hne : x ≠ y)
    (h : endsWithStr s a = true) : endsWithStr s b = false := by
  by_contra hb
  have hb' : endsWithStr s b = true := by
    cases hval : endsWithStr s b
    · exact absurd hval hb
    · rfl
  have h1 := endsWith_getLast s a x hax h
  have h2 := endsWith_getLast s b y hby hb'
  rw [h1] at h2
  exact hne (Option.some.inj h2)

/-- Dispatch branch 1: a `.zip` name selects the `unzip` command. -/
theorem dispatch_zip (f p d : String) (h : endsWithStr (lower f) ".zip" = true) :
    buildExtractCommand f p d = some (.unzip p d) := by
  simp [buildExtractCommand, h]

/-- Dispatch branch 2: a `.tar.gz` / `.tgz` name selects `tar -xzf`. -/
theorem dispatch_gz (f p d : String)
    (h : endsWithStr (lower f) ".tar.gz" = true ∨ endsWithStr (lower f) ".tgz" = true) :
    buildExtractCommand f p d = some (.tarGz p d) := by
  have hzip : endsWithStr (lower f) ".zip" = false := by
    rcases h with h | h
    · exact not_endsWith_both _ ".tar.gz" ".zip" 'z' 'p' (by decide) (by decide) (by decide) h
    · exact not_endsWith_both _ ".tgz" ".zip" 'z' 'p' (by decide) (by decide) (by decide) h
  rcases h with h | h <;> simp [buildExtractCommand, hzip, h]

/-- Dispatch branch 3: a `.tar.bz2` / `.tbz2` name selects `tar -xjf`. -/
theorem dispatch_bz2 (f p d : String)
    (h : endsWithStr (lower f) ".tar.bz2" = true ∨ endsWithStr (lower f) ".tbz2" = true) :
    buildExtractCommand f p d = some (.tarBz2 p d) := by
  have hzip : endsWithStr (lower f) ".zip" = false := by
    rcases h with h | h
    · exact not_endsWith_both _ ".tar.bz2" ".zip" '2' 'p' (by decide) (by decide) (by decide) h
    · exact not_endsWith_both _ ".tbz2" ".zip" '2' 'p' (by decide) (by decide) (by decide) h
  have hgz : endsWithStr (lower f) ".tar.gz" = false := by
    rcases h with h | h
    · exact not_endsWith_both _ ".tar.bz2" ".tar.gz" '2' 'z' (by decide) (by decide) (by decide) h
    · exact not_endsWith_both _ ".tbz2" ".tar.gz" '2' 'z' (by decide) (by decide) (by decide) h
  have htgz : endsWithStr (lower f) ".tgz" = false := by
    rcases h with h | h
    · exact not_endsWith_both _ ".tar.bz2" ".tgz" '2' 'z' (by decide) (by decide) (by decide) h
    · exact not_endsWith_both _ ".tbz2" ".tgz" '2' 'z' (by decide) (by decide) (by decide) h
  rcases h with h | h <;> simp [buildExtractCommand, hzip, hgz, htgz, h]

/-- Dispatch branch 4: a plain `.tar` name selects `tar -xf`. -/
theorem dispatch_tar (f p d : String) (h : endsWithStr (lower f) ".tar" = true) :
    buildExtractCommand f p d = some (.tarPlain p d) := by
  have hzip : endsWithStr (lower f) ".zip" = false :=
    not_endsWith_both _ ".tar" ".zip" 'r' 'p' (by decide) (by decide) (by decide) h
  have hgz : endsWithStr (lower f) ".tar.gz" = false :=
    not_endsWith_both _ ".tar" ".tar.gz" 'r' 'z' (by decide) (by decide) (by decide) h
  have htgz : endsWithStr (lower f) ".tgz" = false :=
    not_endsWith_both _ ".tar" ".tgz" 'r' 'z' (by decide) (by decide) (by decide) h
  have hbz : endsWithStr (lower f) ".tar.bz2" = false :=
    not_endsWith_both _ ".tar" ".tar.bz2" 'r' '2' (by decide) (by decide) (by decide) h
  have htbz : endsWithStr (lower f) ".tbz2" = false :=
    not_endsWith_both _ ".tar" ".tbz2" 'r' '2' (by decide) (by decide) (by decide) h
  simp [buildExtractCommand, hzip, hgz, htgz, hbz, htbz, h]

/-- The recognized-archive test implies the dispatch chain produces a
command: `execAsync(extractCommand)` never sees `undefined`. -/
theorem buildExtractCommand_isSome (f p d : String) (h : is_archive f = true) :
    (buildExtractCommand f p d).isSome = true := by
  simp only [is_archive, List.any_cons, List.any_nil, Bool.or_eq_true,
    Bool.or_false] at h
  rcases h with h | h | h | h | h | h
  · rw [dispatch_tar f p d h]; rfl
  · rw [dispatch_gz f p d (Or.inl h)]; rfl
  · rw [dispatch_gz f p d (Or.inr h)]; rfl
  · rw [dispatch_bz2 f p d (Or.inl h)]; rfl
  · rw [dispatch_bz2 f p d (Or.inr h)]; rfl
  · rw [dispatch_zip f p d h]; rfl

/-- C6: `is_archive` holds exactly when the filename ends, case-insensitively,
with one of `.tar`, `.tar.gz`, `.tgz`, `.tar.bz2`, `.tbz2`, `.zip`; the
extraction dispatch sends the compound suffixes `.tar.gz`/`.tar.bz2` (and
`.tgz`/`.tbz2`) to their own commands with plain `.tar` as the last branch,
and produces a command for every recognized archive. -/
theorem c6_is_archive_spec (f p d : String) :
    (is_archive f = true ↔
      (endsWithStr (lower f) ".tar" = true ∨ endsWithStr (lower f) ".tar.gz" = true ∨
       endsWithStr (lower f) ".tgz" = true ∨ endsWithStr (lower f) ".tar.bz2" = true ∨
       endsWithStr (lower f) ".tbz2" = true ∨ endsWithStr (lower f) ".zip" = true))
    ∧ (endsWithStr (lower f) ".zip" = true →
        buildExtractCommand f p d = some (.unzip p d))
    ∧ (endsWithStr (lower f) ".tar.gz" = true ∨ endsWithStr (lower f) ".tgz" = true →
        buildExtractCommand f p d = some (.tarGz p d))
    ∧ (endsWithStr (lower f) ".tar.bz2" = true ∨ endsWithStr (lower f) ".tbz2" = true →
        buildExtractCommand f p d = some (.tarBz2 p d))
    ∧ (endsWithStr (lower f) ".tar" = true →
        buildExtractCommand f p d = some (.tarPlain p d))
    ∧ (is_archive f = true → (buildExtractCommand f p d).isSome = true) := by
  refine ⟨?_, dispatch_zip f p d, dispatch_gz f p d, dispatch_bz2 f p d,
    dispatch_tar f p d, buildExtractCommand_isSome f p d⟩
  simp [is_archive]

/-- Concrete instance of `c6_is_archive_spec`: a mixed-case compound-suffix
name is recognized and dispatched to the gzip command. -/
theorem c6_is_archive_spec_witness :
    is_archive "Logs.TAR.GZ" = true ∧
    buildExtractCommand "Logs.TAR.GZ" "/a" "/b" = some (.tarGz "/a" "/b") := by
  constructor
  · exact (c6_is_archive_spec "Logs.TAR.GZ" "/a" "/b").1.mpr (Or.inr (Or.inl (by decide)))
  · exact (c6_is_archive_spec "Logs.TAR.GZ" "/a" "/b").2.2.1 (Or.inl (by decide))

/-- C9: every collaborator error (upstream fetch, disk write, extraction
command) is caught at the operation boundary and turned into the `catch`
block's structured `isError` payload carrying the error message; the
handlers are total functions into `ToolResponse` and never propagate the
error further. -/
theorem c9_structured_errors :
    (∀ msg, get_attachment (.error msg) =
      .failure ("Error getting attachment: " ++ msg))
  ∧ (∀ msg, download_attachment (.error msg) =
      .failure ("Error downloading attachment: " ++ msg))
  ∧ (∀ url fn env msg, env.fetch = Except.error msg →
      (download_attachment_to_disk url fn env).1 =
        .failure ("Error downloading attachment to disk: " ++ msg))
  ∧ (∀ url fn env msg r, env.fetch = Except.ok r → env.write = Except.error msg →
      (download_attachment_to_disk url fn env).1 =
        .failure ("Error downloading attachment to disk: " ++ msg))
  ∧ (∀ url fn env msg, env.fetch = Except.error msg →
      (download_and_extract_attachment url fn env).1 =
        .failure ("Error downloading/extracting attachment: " ++ msg))
  ∧ (∀ url fn env msg r, env.fetch = Except.ok r → env.write = Except.error msg →
      (download_and_extract_attachment url fn env).1 =
        .failure ("Error downloading/extracting attachment: " ++ msg))
  ∧ (∀ url fn env msg r, env.fetch = Except.ok r → env.write = Except.ok () →
      is_archive (resolveFilename url fn r.contentType env.now) = true →
      env.exec = Except.error msg →
      (download_and_extract_attachment url fn env).1 =
        .failure ("Error downloading/extracting attachment: " ++ msg)) := by
  refine ⟨fun msg => rfl, fun msg => rfl, ?_, ?_, ?_, ?_, ?_⟩
  · intro url fn env msg h
    simp [download_attachment_to_disk, h]
  · intro url fn env msg r hf hw
    simp [download_attachment_to_disk, hf, hw]
  · intro url fn env msg h
    simp [download_and_extract_attachment, h]
  · intro url fn env msg r hf hw
    simp [download_and_extract_attachment, hf, hw]
  · intro url fn env msg r hf hw ha hx
    have hb := buildExtractCommand_isSome (resolveFilename url fn r.contentType env.now)
      (pathJoin (cacheRoot env.tmpdir) (resolveFilename url fn r.contentType env.now))
      (pathJoin (cacheRoot env.tmpdir) ("extracted-" ++ toString env.now)) ha
    cases hbc : buildExtractCommand (resolveFilename url fn r.contentType env.now)
        (pathJoin (cacheRoot env.tmpdir) (resolveFilename url fn r.contentType env.now))
        (pathJoin (cacheRoot env.tmpdir) ("extracted-" ++ toString env.now)) with
    | none => rw [hbc] at hb; simp at hb
    | some cmd => simp [download_and_extract_attachment, hf, hw, ha, hbc, hx]

/-- Concrete instance of `c9_structured_errors`: a failing metadata fetch and
a failing `tar` run both come back as structured error payloads. -/
theorem c9_structured_errors_witness :
    get_attachment (.error "boom") =
      .failure ("Error getting attachment: " ++ "boom") ∧
    (download_and_extract_attachment "https://example.com/files/evil.tar" none
        ⟨"/tmp", 100, .ok ⟨"RVZJTA==", some "application/x-tar", 8⟩, .ok (),
         .error "tar: Unexpected EOF in archive", []⟩).1 =
      .failure ("Error downloading/extracting attachment: " ++
        "tar: Unexpected EOF in archive") := by
  constructor
  · exact c9_structured_errors.1 "boom"
  · exact c9_structured_errors.2.2.2.2.2.2 "https://example.com/files/evil.tar" none
      ⟨"/tmp", 100, .ok ⟨"RVZJTA==", some "application/x-tar", 8⟩, .ok (),
       .error "tar: Unexpected EOF in archive", []⟩
      "tar: Unexpected EOF in archive" ⟨"RVZJTA==", some "application/x-tar", 8⟩
      rfl rfl (by decide) rfl

/-- C2 amended: there is no cache check and no `from_cache` signal — every
call of either download handler invokes the upstream fetch collaborator
exactly once, whatever its inputs and outcomes. -/
theorem c2_every_call_fetches :
    (∀ url fn env, fetchCalls (download_attachment_to_disk url fn env).2 = 1)
  ∧ (∀ url fn env, fetchCalls (download_and_extract_attachment url fn env).2 = 1) := by
  constructor
  · intro url fn env
    rcases hf : env.fetch with msg | r
    · simp [download_attachment_to_disk, hf, fetchCalls]
    · rcases hw : env.write with msg | u <;>
        simp [download_attachment_to_disk, hf, hw, fetchCalls]
  · intro url fn env
    rcases hf : env.fetch with msg | r
    · simp [download_and_extract_attachment, hf, fetchCalls]
    · rcases hw : env.write with msg | u
      · simp [download_and_extract_attachment, hf, hw, fetchCalls]
      · cases ha : is_archive (resolveFilename url fn r.contentType env.now)
        · simp [download_and_extract_attachment, hf, hw, ha, fetchCalls]
        · rcases hb : buildExtractCommand (resolveFilename url fn r.contentType env.now)
              (pathJoin (cacheRoot env.tmpdir) (resolveFilename url fn r.contentType env.now))
              (pathJoin (cacheRoot env.tmpdir) ("extracted-" ++ toString env.now))
              with _ | cmd
          · simp [download_and_extract_attachment, hf, hw, ha, hb, fetchCalls]
          · rcases hx : env.exec with msg | u2 <;>
              simp [download_and_extract_attachment, hf, hw, ha, hb, hx, fetchCalls]

/-- C2 is false of the code: calling `download_attachment_to_disk` twice with
the same identifier invokes the fetch collaborator on both calls (two
invocations in the combined trace, not at most one), and the second call
returns the same plain success payload — no cache hit, no `from_cache`
field. -/
theorem c2_counterexample :
    fetchCalls ((download_attachment_to_disk "https://example.com/files/log.zip" none
        ⟨"/tmp", 100, .ok ⟨"QUJD", some "application/zip", 3⟩, .ok ()⟩).2 ++
      (download_attachment_to_disk "https://example.com/files/log.zip" none
        ⟨"/tmp", 100, .ok ⟨"QUJD", some "application/zip", 3⟩, .ok ()⟩).2) = 2
    ∧ (download_attachment_to_disk "https://example.com/files/log.zip" none
        ⟨"/tmp", 100, .ok ⟨"QUJD", some "application/zip", 3⟩, .ok ()⟩).1 =
      .diskOk "/tmp/zendesk-attachments/log.zip" "log.zip" (some "application/zip") 3 := by
  decide

/-- C1 fails on the code: extracting `evil.tar`, whose sole member path is
`../../evil`, reports success — the handler's behaviour is identical for any
archive bytes (it never decodes the member list), its only archive-dependent
step is handing the file to the external `tar` command, and under that
command's semantics the member resolves to `/tmp/evil`, outside the
extraction root.  No member path is computed, canonicalized, checked or
rejected anywhere, and the extraction does not fail. -/
theorem c1_traversal_unchecked :
    (download_and_extract_attachment "https://example.com/files/evil.tar" none
        ⟨"/tmp", 100, .ok ⟨"RVZJTEJZVEVT", some "application/x-tar", 9⟩,
         .ok (), .ok (), []⟩).1 =
      .extractOk "/tmp/zendesk-attachments/evil.tar"
        "/tmp/zendesk-attachments/extracted-100" "evil.tar"
        (some "application/x-tar") 9 0
    ∧ (download_and_extract_attachment "https://example.com/files/evil.tar" none
        ⟨"/tmp", 100, .ok ⟨"QkVOSUdOQllURVM=", some "application/x-tar", 9⟩,
         .ok (), .ok (), []⟩).1 =
      (download_and_extract_attachment "https://example.com/files/evil.tar" none
        ⟨"/tmp", 100, .ok ⟨"RVZJTEJZVEVT", some "application/x-tar", 9⟩,
         .ok (), .ok (), []⟩).1
    ∧ FSOp.execCmd (.tarPlain "/tmp/zendesk-attachments/evil.tar"
        "/tmp/zendesk-attachments/extracted-100") ∈
      (download_and_extract_attachment "https://example.com/files/evil.tar" none
        ⟨"/tmp", 100, .ok ⟨"RVZJTEJZVEVT", some "application/x-tar", 9⟩,
         .ok (), .ok (), []⟩).2
    ∧ tarWrites (segsOf "/tmp/zendesk-attachments/extracted-100")
        [["..", "..", "evil"]] = [["tmp", "evil"]]
    ∧ underRoot (segsOf "/tmp/zendesk-attachments/extracted-100")
        ["tmp", "evil"] = false := by
  decide

/-- C3 is false of the code: when the extraction command fails the handler
returns the structured error payload, but its trace still contains the
creation of the extraction directory (and the archive write) and removes
nothing — the partially written extraction directory is left behind. -/
theorem c3_counterexample :
    (download_and_extract_attachment "https://example.com/files/evil.tar" none
        ⟨"/tmp", 100, .ok ⟨"RVZJTA==", some "application/x-tar", 8⟩, .ok (),
         .error "tar: Unexpected EOF in archive", []⟩).1 =
      .failure "Error downloading/extracting attachment: tar: Unexpected EOF in archive"
    ∧ FSOp.mkdirRecursive "/tmp/zendesk-attachments/extracted-100" ∈
      (download_and_extract_attachment "https://example.com/files/evil.tar" none
        ⟨"/tmp", 100, .ok ⟨"RVZJTA==", some "application/x-tar", 8⟩, .ok (),
         .error "tar: Unexpected EOF in archive", []⟩).2
    ∧ removesOf (download_and_extract_attachment "https://example.com/files/evil.tar" none
        ⟨"/tmp", 100, .ok ⟨"RVZJTA==", some "application/x-tar", 8⟩, .ok (),
         .error "tar: Unexpected EOF in archive", []⟩).2 = [] := by
  decide

/-- C3 amended: extraction failure is fail-reported but not fail-cleaned —
the handler never removes anything in any run, and in a run whose extraction
command fails it has already created the extraction directory, which stays. -/
theorem c3_no_cleanup :
    (∀ url fn env, removesOf (download_and_extract_attachment url fn env).2 = [])
  ∧ (∀ url fn env msg r, env.fetch = Except.ok r → env.write = Except.ok () →
      is_archive (resolveFilename url fn r.contentType env.now) = true →
      env.exec = Except.error msg →
      (download_and_extract_attachment url fn env).1.isError = true ∧
      FSOp.mkdirRecursive (pathJoin (cacheRoot env.tmpdir)
          ("extracted-" ++ toString env.now)) ∈
        (download_and_extract_attachment url fn env).2) := by
  constructor
  · intro url fn env
    rcases hf : env.fetch with msg | r
    · simp [download_and_extract_attachment, hf, removesOf]
    · rcases hw : env.write with msg | u
      · simp [download_and_extract_attachment, hf, hw, removesOf]
      · cases ha : is_archive (resolveFilename url fn r.contentType env.now)
        · simp [download_and_extract_attachment, hf, hw, ha, removesOf]
        · rcases hb : buildExtractCommand (resolveFilename url fn r.contentType env.now)
              (pathJoin (cacheRoot env.tmpdir) (resolveFilename url fn r.contentType env.now))
              (pathJoin (cacheRoot env.tmpdir) ("extracted-" ++ toString env.now))
              with _ | cmd
          · simp [download_and_extract_attachment, hf, hw, ha, hb, removesOf]
          · rcases hx : env.exec with msg | u2 <;>
              simp [download_and_extract_attachment, hf, hw, ha, hb, hx, removesOf]
  · intro url fn env msg r hf hw ha hx
    have hb := buildExtractCommand_isSome (resolveFilename url fn r.contentType env.now)
      (pathJoin (cacheRoot env.tmpdir) (resolveFilename url fn r.contentType env.now))
      (pathJoin (cacheRoot env.tmpdir) ("extracted-" ++ toString env.now)) ha
    cases hbc : buildExtractCommand (resolveFilename url fn r.contentType env.now)
        (pathJoin (cacheRoot env.tmpdir) (resolveFilename url fn r.contentType env.now))
        (pathJoin (cacheRoot env.tmpdir) ("extracted-" ++ toString env.now)) with
    | none => rw [hbc] at hb; simp at hb
    | some cmd =>
      constructor <;>
        simp [download_and_extract_attachment, hf, hw, ha, hbc, hx, ToolResponse.isError]

/-- Concrete instance of `c3_no_cleanup`: a corrupt tarball leaves the
extraction directory behind with nothing removed. -/
theorem c3_no_cleanup_witness :
    removesOf (download_and_extract_attachment "https://example.com/files/evil.tar" none
        ⟨"/tmp", 100, .ok ⟨"RVZJTA==", some "application/x-tar", 8⟩, .ok (),
         .error "gzip: stdin: not in gzip format", []⟩).2 = []
    ∧ (download_and_extract_attachment "https://example.com/files/evil.tar" none
        ⟨"/tmp", 100, .ok ⟨"RVZJTA==", some "application/x-tar", 8⟩, .ok (),
         .error "gzip: stdin: not in gzip format", []⟩).1.isError = true
    ∧ FSOp.mkdirRecursive (pathJoin (cacheRoot "/tmp") ("extracted-" ++ toString 100)) ∈
      (download_and_extract_attachment "https://example.com/files/evil.tar" none
        ⟨"/tmp", 100, .ok ⟨"RVZJTA==", some "application/x-tar", 8⟩, .ok (),
         .error "gzip: stdin: not in gzip format", []⟩).2 := by
  have h := c3_no_cleanup.2 "https://example.com/files/evil.tar" none
    ⟨"/tmp", 100, .ok ⟨"RVZJTA==", some "application/x-tar", 8⟩, .ok (),
     .error "gzip: stdin: not in gzip format", []⟩
    "gzip: stdin: not in gzip format" ⟨"RVZJTA==", some "application/x-tar", 8⟩
    rfl rfl (by decide) rfl
  exact ⟨c3_no_cleanup.1 "https://example.com/files/evil.tar" none
    ⟨"/tmp", 100, .ok ⟨"RVZJTA==", some "application/x-tar", 8⟩, .ok (),
     .error "gzip: stdin: not in gzip format", []⟩, h.1, h.2⟩

/-- C4 is false of the code: the single write of a run targets the final
published path directly — when the write fails with a disk error, the
attempted write recorded in the trace is at exactly the path a successful
run publishes, so there is no temporary location and no metadata-last commit
step shielding readers from a partial file. -/
theorem c4_counterexample :
    writesOf (download_attachment_to_disk "https://example.com/files/log.zip" none
        ⟨"/tmp", 100, .ok ⟨"QUJD", some "application/zip", 3⟩,
         .error "ENOSPC: no space left on device"⟩).2 =
      [("/tmp/zendesk-attachments/log.zip", "QUJD")]
    ∧ (download_attachment_to_disk "https://example.com/files/log.zip" none
        ⟨"/tmp", 100, .ok ⟨"QUJD", some "application/zip", 3⟩,
         .error "ENOSPC: no space left on device"⟩).1.isError = true
    ∧ (download_attachment_to_disk "https://example.com/files/log.zip" none
        ⟨"/tmp", 100, .ok ⟨"QUJD", some "application/zip", 3⟩, .ok ()⟩).1 =
      .diskOk "/tmp/zendesk-attachments/log.zip" "log.zip" (some "application/zip") 3 := by
  decide

/-- C4 amended: whenever the fetch succeeds, the handler performs exactly one
write, directly at the final path it publishes on success, whatever the write
outcome — there is no temporary-location step and no separate metadata
publication. -/
theorem c4_direct_write (url : String) (fn : Option String) (env : DiskEnv)
    (r : FetchResult) (hf : env.fetch = Except.ok r) :
    writesOf (download_attachment_to_disk url fn env).2 =
      [(storageLocation env.tmpdir url fn r.contentType env.now, r.data)]
    ∧ (env.write = Except.ok () →
        (download_attachment_to_disk url fn env).1 =
          .diskOk (storageLocation env.tmpdir url fn r.contentType env.now)
            (resolveFilename url fn r.contentType env.now) r.contentType r.size) := by
  constructor
  · rcases hw : env.write with msg | u <;>
      simp [download_attachment_to_disk, storageLocation, hf, hw, writesOf]
  · intro hw
    simp [download_attachment_to_disk, storageLocation, hf, hw]

/-- Concrete instance of `c4_direct_write`. -/
theorem c4_direct_write_witness :
    writesOf (download_attachment_to_disk "https://example.com/files/log.zip" none
        ⟨"/tmp", 100, .ok ⟨"QUJD", some "application/zip", 3⟩, .ok ()⟩).2 =
      [(storageLocation "/tmp" "https://example.com/files/log.zip" none
          (some "application/zip") 100, "QUJD")]
    ∧ (download_attachment_to_disk "https://example.com/files/log.zip" none
        ⟨"/tmp", 100, .ok ⟨"QUJD", some "application/zip", 3⟩, .ok ()⟩).1 =
      .diskOk (storageLocation "/tmp" "https://example.com/files/log.zip" none
          (some "application/zip") 100)
        (resolveFilename "https://example.com/files/log.zip" none
          (some "application/zip") 100) (some "application/zip") 3 := by
  have h := c4_direct_write "https://example.com/files/log.zip" none
    ⟨"/tmp", 100, .ok ⟨"QUJD", some "application/zip", 3⟩, .ok ()⟩
    ⟨"QUJD", some "application/zip", 3⟩ rfl
  exact ⟨h.1, h.2 rfl⟩

/-- C5 is false of the code: for a non-archive entry (`report.pdf`) the
operation succeeds — it returns the `extracted: false` payload with message
"Attachment downloaded (not an archive)", not an operation-level error. -/
theorem c5_counterexample :
    (download_and_extract_attachment "https://example.com/files/report.pdf" none
        ⟨"/tmp", 100, .ok ⟨"UERG", some "application/pdf", 3⟩, .ok (), .ok (), []⟩).1 =
      .extractSkipped "/tmp/zendesk-attachments/report.pdf" "report.pdf"
        (some "application/pdf") 3
    ∧ (download_and_extract_attachment "https://example.com/files/report.pdf" none
        ⟨"/tmp", 100, .ok ⟨"UERG", some "application/pdf", 3⟩, .ok (), .ok (), []⟩).1.isError
      = false
    ∧ (download_and_extract_attachment "https://example.com/files/report.pdf" none
        ⟨"/tmp", 100, .ok ⟨"UERG", some "application/pdf", 3⟩, .ok (), .ok (), []⟩).1.message
      = "Attachment downloaded (not an archive)" := by
  decide

/-- C5 amended: when the resolved filename is not a recognized archive, the
operation succeeds with the non-error `extracted: false` payload — there is
no `NotArchiveError` anywhere in the code. -/
theorem c5_nonarchive_succeeds (url : String) (fn : Option String) (env : ExtractEnv)
    (r : FetchResult) (hf : env.fetch = Except.ok r) (hw : env.write = Except.ok ())
    (ha : is_archive (resolveFilename url fn r.contentType env.now) = false) :
    (download_and_extract_attachment url fn env).1 =
      .extractSkipped (storageLocation env.tmpdir url fn r.contentType env.now)
        (resolveFilename url fn r.contentType env.now) r.contentType r.size
    ∧ (download_and_extract_attachment url fn env).1.isError = false := by
  constructor <;>
    simp [download_and_extract_attachment, storageLocation, hf, hw, ha,
      ToolResponse.isError]

/-- Concrete instance of `c5_nonarchive_succeeds`. -/
theorem c5_nonarchive_succeeds_witness :
    (download_and_extract_attachment "https://example.com/files/notes.txt" none
        ⟨"/tmp", 100, .ok ⟨"Tk9URVM=", some "text/plain", 5⟩, .ok (), .ok (), []⟩).1 =
      .extractSkipped (storageLocation "/tmp" "https://example.com/files/notes.txt" none
          (some "text/plain") 100)
        (resolveFilename "https://example.com/files/notes.txt" none (some "text/plain") 100)
        (some "text/plain") 5
    ∧ (download_and_extract_attachment "https://example.com/files/notes.txt" none
        ⟨"/tmp", 100, .ok ⟨"Tk9URVM=", some "text/plain", 5⟩, .ok (), .ok (), []⟩).1.isError
      = false :=
  c5_nonarchive_succeeds "https://example.com/files/notes.txt" none
    ⟨"/tmp", 100, .ok ⟨"Tk9URVM=", some "text/plain", 5⟩, .ok (), .ok (), []⟩
    ⟨"Tk9URVM=", some "text/plain", 5⟩ rfl rfl (by decide)

/-- C7 is false of the code: there is no dedicated cache-root override — the
root is always the platform temp directory joined with the fixed subfolder
`zendesk-attachments`, so even when the temp directory is overridden to
`/custom` the cache root resolves to `/custom/zendesk-attachments`, never to
the override value itself. -/
theorem c7_counterexample :
    cacheRoot "/custom" = "/custom/zendesk-attachments" ∧
    cacheRoot "/custom" ≠ "/custom" := by
  decide

/-- C7 amended: the cache root is always `path.join(os.tmpdir(),
'zendesk-attachments')`, and each download handler creates it with a
recursive mkdir immediately before writing into it — in every run whose
fetch succeeded, the first three effects are the fetch, the mkdir of the
cache root, and the write of the entry file under that root. -/
theorem c7_cache_root (url : String) (fn : Option String) :
    (∀ env r, env.fetch = Except.ok r →
      (download_attachment_to_disk url fn env).2.take 3 =
        [.fetchCall url, .mkdirRecursive (cacheRoot env.tmpdir),
         .writeFile (storageLocation env.tmpdir url fn r.contentType env.now) r.data])
  ∧ (∀ env r, env.fetch = Except.ok r →
      (download_and_extract_attachment url fn env).2.take 3 =
        [.fetchCall url, .mkdirRecursive (cacheRoot env.tmpdir),
         .writeFile (storageLocation env.tmpdir url fn r.contentType env.now) r.data]) := by
  constructor
  · intro env r hf
    rcases hw : env.write with msg | u <;>
      simp [download_attachment_to_disk, storageLocation, hf, hw]
  · intro env r hf
    rcases hw : env.write with msg | u
    · simp [download_and_extract_attachment, storageLocation, hf, hw]
    · cases ha : is_archive (resolveFilename url fn r.contentType env.now)
      · simp [download_and_extract_attachment, storageLocation, hf, hw, ha]
      · rcases hb : buildExtractCommand (resolveFilename url fn r.contentType env.now)
            (pathJoin (cacheRoot env.tmpdir) (resolveFilename url fn r.contentType env.now))
            (pathJoin (cacheRoot env.tmpdir) ("extracted-" ++ toString env.now))
            with _ | cmd
        · simp [download_and_extract_attachment, storageLocation, hf, hw, ha, hb]
        · rcases hx : env.exec with msg | u2 <;>
            simp [download_and_extract_attachment, storageLocation, hf, hw, ha, hb, hx]

/-- Concrete instance of `c7_cache_root`. -/
theorem c7_cache_root_witness :
    (download_attachment_to_disk "https://example.com/files/log.zip" none
        ⟨"/tmp", 100, .ok ⟨"QUJD", some "application/zip", 3⟩, .ok ()⟩).2.take 3 =
      [.fetchCall "https://example.com/files/log.zip",
       .mkdirRecursive (cacheRoot "/tmp"),
       .writeFile (storageLocation "/tmp" "https://example.com/files/log.zip" none
          (some "application/zip") 100) "QUJD"] :=
  (c7_cache_root "https://example.com/files/log.zip" none).1
    ⟨"/tmp", 100, .ok ⟨"QUJD", some "application/zip", 3⟩, .ok ()⟩
    ⟨"QUJD", some "application/zip", 3⟩ rfl

/-- C8 is false of the code: for the same identifier (a content URL the URL
parser rejects) and no supplied filename, the storage location embeds
`Date.now()` and differs between two calls at different times — it is not a
pure function of the identifier. -/
theorem c8_counterexample :
    storageLocation "/tmp" "notaurl" none (some "application/gzip") 1 ≠
      storageLocation "/tmp" "notaurl" none (some "application/gzip") 2
    ∧ storageLocation "/tmp" "notaurl" none (some "application/gzip") 1 =
      "/tmp/zendesk-attachments/attachment-1.gzip"
    ∧ storageLocation "/tmp" "notaurl" none (some "application/gzip") 2 =
      "/tmp/zendesk-attachments/attachment-2.gzip" := by
  decide

/-- C8 amended: the storage location is a time-independent pure function of
the inputs whenever a nonempty filename is supplied or the content URL
parses; only the fallback for an unparseable URL with no filename embeds
`Date.now()`.  The handler publishes exactly this location on success. -/
theorem c8_storage_location :
    (∀ t url ct n₁ n₂ f, f ≠ "" →
      storageLocation t url (some f) ct n₁ = storageLocation t url (some f) ct n₂)
  ∧ (∀ t url ct n₁ n₂ p, urlPathname url = some p →
      storageLocation t url none ct n₁ = storageLocation t url none ct n₂)
  ∧ (∀ url fn env r, env.fetch = Except.ok r → env.write = Except.ok () →
      (download_attachment_to_disk url fn env).1 =
        .diskOk (storageLocation env.tmpdir url fn r.contentType env.now)
          (resolveFilename url fn r.contentType env.now) r.contentType r.size) := by
  refine ⟨?_, ?_, ?_⟩
  · intro t url ct n₁ n₂ f hf
    simp [storageLocation, resolveFilename, hf]
  · intro t url ct n₁ n₂ p hp
    simp [storageLocation, resolveFilename, resolveFilenameFromUrl, hp]
  · intro url fn env r hf hw
    simp [download_attachment_to_disk, storageLocation, hf, hw]

/-- Concrete instance of `c8_storage_location`: with a supplied filename, and
with a parseable URL, the location is the same at two different times. -/
theorem c8_storage_location_witness :
    storageLocation "/tmp" "https://example.com/files/a.bin" (some "app.log") none 1 =
      storageLocation "/tmp" "https://example.com/files/a.bin" (some "app.log") none 2
    ∧ storageLocation "/tmp" "https://example.com/files/log.zip" none none 1 =
      storageLocation "/tmp" "https://example.com/files/log.zip" none none 2 :=
  ⟨c8_storage_location.1 "/tmp" "https://example.com/files/a.bin" none 1 2 "app.log"
      (by decide),
   c8_storage_location.2.1 "/tmp" "https://example.com/files/log.zip" none 1 2
      "/files/log.zip" (by decide)⟩

/-- C10 is false of the code as stated: for an attachment whose base64 data
has at most 100 characters, `data.substring(0, 100)` is the whole data, so
the returned data field contains the full base64 data (here all of `QUJD`),
contrary to "never the full data, regardless of the attachment's size". -/
theorem c10_counterexample :
    download_attachment (.ok ⟨"QUJD", some "text/plain", 3⟩) =
      .downloadOk (some "text/plain") 3 "QUJD..."
    ∧ listPrefixOf "QUJD".data "QUJD...".data = true := by
  decide

/-- C10 amended: the data field of the successful payload is exactly the
first 100 characters of the base64 data — all of it when shorter — followed
by `'...'`; since base64 text never contains `'.'`, for data longer than 100
characters the field differs from the full data, whose remainder is
truncated away. -/
theorem c10_preview (fetch : Except String FetchResult) (r : FetchResult)
    (hf : fetch = Except.ok r) :
    download_attachment fetch =
      .downloadOk r.contentType r.size (takeStr r.data 100 ++ "...")
    ∧ (takeStr r.data 100 ++ "...").data = r.data.data.take 100 ++ ['.', '.', '.']
    ∧ (100 < r.data.data.length → (∀ c ∈ r.data.data, c ≠ '.') →
        takeStr r.data 100 ++ "..." ≠ r.data) := by
  subst hf
  have hpre : (takeStr r.data 100 ++ "...").data =
      r.data.data.take 100 ++ ['.', '.', '.'] := rfl
  refine ⟨rfl, hpre, ?_⟩
  intro hlen hdot heq
  have hd : r.data.data.take 100 ++ ['.', '.', '.'] = r.data.data := by
    rw [← hpre, heq]
  have hlt100 : (r.data.data.take 100).length = 100 := by
    rw [List.length_take]; omega
  have hle : (r.data.data.take 100).length ≤ 100 := by
    rw [hlt100]
  have h100 : r.data.data[100]? = some '.' := by
    rw [← hd, List.getElem?_append_right hle, hlt100]
    decide
  have hmem : ('.' : Char) ∈ r.data.data := by
    obtain ⟨hlt, he⟩ := List.getElem?_eq_some.mp h100
    exact he ▸ List.getElem_mem hlt
  exact hdot '.' hmem rfl

/-- Concrete instance of `c10_preview`: 101 copies of `'A'` are previewed as
100 copies plus `'...'`, which is not the full data. -/
theorem c10_preview_witness :
    download_attachment (.ok ⟨String.mk (List.replicate 101 'A'), none, 101⟩) =
      .downloadOk none 101 (takeStr (String.mk (List.replicate 101 'A')) 100 ++ "...")
    ∧ takeStr (String.mk (List.replicate 101 'A')) 100 ++ "..." ≠
        String.mk (List.replicate 101 'A') := by
  have h := c10_preview (.ok ⟨String.mk (List.replicate 101 'A'), none, 101⟩)
    ⟨String.mk (List.replicate 101 'A'), none, 101⟩ rfl
  exact ⟨h.1, h.2.2 (by decide) (by decide)⟩

end Zendesk
